import Mathlib

/-!
Shallow embedding of the login handler of zean00/loginsrv
(src/login/handler.go) together with the httpupstream backend
(src/unnamed/part_001), for checking the specification claims.

Conventions of the embedding:
* Go strings that may carry a serialized JWT are modelled by `StrVal`:
  either a plain string, or a token produced by the HMAC-SHA512 signer.
  The signer itself (the dgrijalva/jwt-go library) is external to the
  repository and is modelled symbolically: a signed token is its claims
  together with the signing secret, and signature verification is
  equality of secrets.
* Fallible Go calls returning `(..., error)` are modelled with `Except`.
* `http.ResponseWriter` effects are modelled by the `Response` record
  that a handler function returns.
-/

deriving instance DecidableEq for Except

namespace Loginsrv

/-- Claims bundle, after model.UserInfo (sub, expiry, refresh counter, origin). -/
structure UserInfo where
  sub : String
  expiry : Int
  refreshes : Nat
  origin : String
  deriving DecidableEq, Repr

/-- The Go zero value model.UserInfo{}. -/
def UserInfo.empty : UserInfo := { sub := "", expiry := 0, refreshes := 0, origin := "" }

/-- A Go string value that may be a serialized JWT. `raw` is an ordinary
string; `jwt claims secret` is the compact serialization produced by
signing `claims` under `secret` with HMAC-SHA512 (modelled symbolically). -/
inductive StrVal where
  | raw (s : String)
  | jwt (claims : UserInfo) (secret : String)
  deriving DecidableEq, Repr

/-- Handler configuration (login.Config fields used by the handler). -/
structure Config where
  loginPath : String
  successURL : String
  logoutURL : String
  cookieName : String
  cookieDomain : String
  cookieExpiry : Int
  cookieHTTPOnly : Bool
  jwtSecret : String
  jwtExpiry : Int
  jwtRefreshes : Nat
  deriving DecidableEq, Repr

/-- The parts of an http.Request the handler reads. `jsonBody` is the JSON
object decoded from the body (`none` when the body does not decode);
`postForm` is r.PostForm after ParseForm; `query` the URL query values;
`cookies` the request cookie jar. -/
structure Request where
  method : String
  contentType : String
  accept : String
  jsonBody : Option (List (String × StrVal))
  postForm : List (String × StrVal)
  query : List (String × StrVal)
  cookies : List (String × StrVal)
  deriving DecidableEq, Repr

/-- An http.Cookie as set by the handler. -/
structure Cookie where
  name : String
  value : StrVal
  httpOnly : Bool
  expires : Option Int
  path : String
  domain : String
  deriving DecidableEq, Repr

/-- loginFormData passed to the HTML template. The source stores the
submitted username inside UserInfo.Sub of the form data; submitted values
live in `StrVal`, so that slot is modelled separately as `echoedUsername`. -/
structure LoginFormData where
  config : Config
  error : Bool := false
  failure : Bool := false
  authenticated : Bool := false
  userInfo : UserInfo := UserInfo.empty
  echoedUsername : StrVal := StrVal.raw ""
  deriving DecidableEq, Repr

/-- The body written to the ResponseWriter. -/
inductive Body where
  | empty
  | text (s : String)
  | token (t : StrVal)
  | form (d : LoginFormData)
  deriving DecidableEq, Repr

/-- The observable HTTP response of one handler invocation. -/
structure Response where
  status : Nat
  location : Option String := none
  contentType : Option String := none
  setCookie : Option Cookie := none
  body : Body := Body.empty
  deriving DecidableEq, Repr

def contentTypeHTML : String := "text/html; charset=utf-8"
def contentTypeJWT : String := "application/jwt"
def contentTypePlain : String := "text/plain"

/-- Go strings.HasPrefix, computed structurally on the character list. -/
def strHasPrefix (pre s : String) : Bool := pre.data.isPrefixOf s.data

/-- Go strings.Contains, computed structurally on the character list. -/
def strContains (s sub : String) : Bool := decide (sub.data <:+: s.data)

/-- Map lookup with the Go default of the empty string (m["k"] on a map). -/
def lookupStr (m : List (String × StrVal)) (k : String) : StrVal :=
  (m.lookup k).getD (StrVal.raw "")

/-- wantHTML: strings.Contains(r.Header.Get("Accept"), "text/html"). -/
def wantHTML (r : Request) : Bool :=
  strContains r.accept "text/html"

/-- r.FormValue(k): POST body values take precedence over URL query values. -/
def formValue (r : Request) (k : String) : StrVal :=
  match r.postForm.lookup k with
  | some v => v
  | none => (r.query.lookup k).getD (StrVal.raw "")

/-- getCredentials: the JSON body is decoded only when the Content-Type
header equals "application/json" exactly; every other content type reads
the three fields from r.PostForm. -/
def getCredentials (r : Request) : Except String (StrVal × StrVal × StrVal) :=
  if r.contentType = "application/json" then
    match r.jsonBody with
    | none => .error "unmarshal error"
    | some m => .ok (lookupStr m "username", lookupStr m "password", lookupStr m "token")
  else
    .ok (lookupStr r.postForm "username", lookupStr r.postForm "password",
         lookupStr r.postForm "token")

/-- The method/content-type gate at the top of handleLogin. -/
def methodContentTypeOk (r : Request) : Bool :=
  r.method == "GET" || r.method == "DELETE" ||
    (r.method == "POST" &&
      (strHasPrefix "application/json" r.contentType ||
       strHasPrefix "application/x-www-form-urlencoded" r.contentType ||
       strHasPrefix "multipart/form-data" r.contentType ||
       r.contentType == ""))

/-- Modelled from the spec: model.UserInfo.Valid is not under src. Per the
spec, parse rejects a token whose exp is in the past or whose sub is empty
(a claims bundle is valid iff the subject is non-empty and the expiry is
not in the past). -/
def UserInfo.validAt (u : UserInfo) (now : Int) : Bool :=
  decide (now ≤ u.expiry) && u.sub != ""

/-- createToken: sign the claims with HMAC-SHA512 under config.JwtSecret
(signing is modelled symbolically and is total on these inputs). -/
def createToken (cfg : Config) (u : UserInfo) : StrVal :=
  StrVal.jwt u cfg.jwtSecret

/-- GetToken: take the supplied token string, falling back to the cookie
when it is empty; parse it under config.JwtSecret and validate the claims.
Any parse or validation failure yields (UserInfo{}, false). -/
def GetToken (cfg : Config) (r : Request) (rtoken : StrVal) (now : Int) :
    UserInfo × Bool :=
  let rt : Option StrVal :=
    if rtoken = StrVal.raw "" then r.cookies.lookup cfg.cookieName else some rtoken
  match rt with
  | none => (UserInfo.empty, false)
  | some (StrVal.raw _) => (UserInfo.empty, false)
  | some (StrVal.jwt claims secret) =>
    if secret = cfg.jwtSecret then
      if claims.validAt now then (claims, true) else (UserInfo.empty, false)
    else (UserInfo.empty, false)

/-- The username the error/failure form echoes:
username, _, _, _ := getCredentials(r). -/
def credUsername (r : Request) : StrVal :=
  match getCredentials r with
  | .ok (u, _, _) => u
  | .error _ => StrVal.raw ""

/-- Modelled from the spec: writeLoginForm (the embedded HTML template
renderer) is not under src. Per the error taxonomy of the spec, a form
rendered with the error banner is served as 500; otherwise rendering writes
no explicit status, which in Go yields 200. Content type is text/html. -/
def writeLoginForm (d : LoginFormData) : Response :=
  { status := if d.error then 500 else 200,
    contentType := some contentTypeHTML,
    body := Body.form d }

/-- respondError: 500 for machine clients; the login form with the error
banner for HTML clients. -/
def respondError (cfg : Config) (r : Request) : Response :=
  if wantHTML r then
    writeLoginForm { config := cfg, error := true, echoedUsername := credUsername r }
  else
    { status := 500, contentType := some contentTypePlain,
      body := Body.text "Internal Server Error" }

def respondBadRequest : Response :=
  { status := 400, body := Body.text "Bad Request: Method or content-type not supported" }

def respondNotFound : Response :=
  { status := 404, body := Body.text "Not Found: The requested page does not exist" }

def respondMaxRefreshesReached : Response :=
  { status := 403, body := Body.text "Max JWT refreshes reached" }

/-- respondAuthFailure: WriteHeader(403) happens before the form render,
so the HTML branch is 403 as well. -/
def respondAuthFailure (cfg : Config) (r : Request) : Response :=
  if wantHTML r then
    { status := 403, contentType := some contentTypeHTML,
      body := Body.form { config := cfg, failure := true,
                          echoedUsername := credUsername r } }
  else
    { status := 403, contentType := some contentTypePlain,
      body := Body.text "Wrong credentials" }

/-- respondAuthenticated: reset the expiry to now + JwtExpiry, sign, then
either Set-Cookie + 303 to SuccessURL (HTML client) or 200 application/jwt
with the token as the body. The createToken error branch cannot fire in
the model (symbolic HMAC signing is total). -/
def respondAuthenticated (cfg : Config) (r : Request) (userInfo : UserInfo)
    (now : Int) : Response :=
  let u : UserInfo := { userInfo with expiry := now + cfg.jwtExpiry }
  let token := createToken cfg u
  if wantHTML r then
    { status := 303,
      location := some cfg.successURL,
      setCookie := some
        { name := cfg.cookieName, value := token,
          httpOnly := cfg.cookieHTTPOnly,
          expires := if cfg.cookieExpiry ≠ 0 then some (now + cfg.cookieExpiry) else none,
          path := "/",
          domain := if cfg.cookieDomain ≠ "" then cfg.cookieDomain else "" } }
  else
    { status := 200, contentType := some contentTypeJWT, body := Body.token token }

/-- deleteToken: the deletion cookie (value "delete", expiry at the epoch,
HttpOnly hard-coded to true). -/
def deleteToken (cfg : Config) : Cookie :=
  { name := cfg.cookieName, value := StrVal.raw "delete", httpOnly := true,
    expires := some 0, path := "/",
    domain := if cfg.cookieDomain ≠ "" then cfg.cookieDomain else "" }

/-- Go error values (only their identity matters to the handler). -/
abbrev GoError := String

/-- Trace context passed to the context-aware entry points. -/
abbrev Ctx := Unit

/-- One configured authenticator backend: the plain and the context-aware
entry points, each returning (authenticated, userInfo, error). -/
structure Backend where
  auth : StrVal → StrVal → Except GoError (Bool × UserInfo)
  authCtx : Ctx → StrVal → StrVal → Except GoError (Bool × UserInfo)

/-- Handler.authenticate: sequential fan-out over the configured backends;
an error aborts, the first ok=true wins, otherwise continue. -/
def authenticate : List Backend → StrVal → StrVal → Except GoError (Bool × UserInfo)
  | [], _, _ => .ok (false, UserInfo.empty)
  | b :: rest, u, p =>
    match b.auth u p with
    | .error e => .error e
    | .ok (true, info) => .ok (true, info)
    | .ok (false, _) => authenticate rest u p

/-- Handler.authenticateWithContext: same fan-out over the context-aware
entry points. -/
def authenticateWithContext : List Backend → Ctx → StrVal → StrVal →
    Except GoError (Bool × UserInfo)
  | [], _, _, _ => .ok (false, UserInfo.empty)
  | b :: rest, ctx, u, p =>
    match b.authCtx ctx u p with
    | .error e => .error e
    | .ok (true, info) => .ok (true, info)
    | .ok (false, _) => authenticateWithContext rest ctx u p

/-- Ghost-instrumented Handler.authenticate: the same loop, additionally
counting how many backends were invoked (so "backends after i are not
consulted" is expressible). -/
def authenticateInvoked : List Backend → StrVal → StrVal →
    Except GoError (Bool × UserInfo) × Nat
  | [], _, _ => (.ok (false, UserInfo.empty), 0)
  | b :: rest, u, p =>
    match b.auth u p with
    | .error e => (.error e, 1)
    | .ok (true, info) => (.ok (true, info), 1)
    | .ok (false, _) =>
      let res := authenticateInvoked rest u p
      (res.1, res.2 + 1)

/-- Ghost-instrumented Handler.authenticateWithContext. -/
def authenticateWithContextInvoked : List Backend → Ctx → StrVal → StrVal →
    Except GoError (Bool × UserInfo) × Nat
  | [], _, _, _ => (.ok (false, UserInfo.empty), 0)
  | b :: rest, ctx, u, p =>
    match b.authCtx ctx u p with
    | .error e => (.error e, 1)
    | .ok (true, info) => (.ok (true, info), 1)
    | .ok (false, _) =>
      let res := authenticateWithContextInvoked rest ctx u p
      (res.1, res.2 + 1)

/-- Handler.handleAuthentication: pick the entry point by the presence of
a global tracer, then dispatch on (error, authenticated). -/
def handleAuthentication (cfg : Config) (tracerInstalled : Bool) (ctx : Ctx)
    (bs : List Backend) (r : Request) (username password : StrVal)
    (now : Int) : Response :=
  let res :=
    if tracerInstalled then authenticateWithContext bs ctx username password
    else authenticate bs username password
  match res with
  | .error _ => respondError cfg r
  | .ok (true, info) => respondAuthenticated cfg r info now
  | .ok (false, _) => respondAuthFailure cfg r

/-- Handler.handleRefresh: 403 when the refresh counter has reached
JwtRefreshes, else bump the counter and respond as authenticated. -/
def handleRefresh (cfg : Config) (r : Request) (userInfo : UserInfo)
    (now : Int) : Response :=
  if cfg.jwtRefreshes ≤ userInfo.refreshes then respondMaxRefreshesReached
  else respondAuthenticated cfg r
    { userInfo with refreshes := userInfo.refreshes + 1 } now

/-- Falling off the end of handleLogin without any write: Go's implicit
200 with an empty body (unreachable once the method gate has passed). -/
def emptyResponse : Response := { status := 200 }

/-- Handler.handleLogin: the full dispatch (method gate, logout, GET form,
POST credential login or refresh). -/
def handleLogin (cfg : Config) (tracerInstalled : Bool) (ctx : Ctx)
    (bs : List Backend) (r : Request) (now : Int) : Response :=
  if !methodContentTypeOk r then respondBadRequest
  else if r.method = "DELETE" ∨ formValue r "logout" = StrVal.raw "true" then
    let c := deleteToken cfg
    if cfg.logoutURL ≠ "" then
      { status := 303, location := some cfg.logoutURL, setCookie := some c }
    else
      { writeLoginForm { config := cfg } with setCookie := some c }
  else if r.method = "GET" then
    let res := GetToken cfg r (StrVal.raw "") now
    writeLoginForm { config := cfg, authenticated := res.2, userInfo := res.1 }
  else if r.method = "POST" then
    match getCredentials r with
    | .error _ => respondBadRequest
    | .ok (username, password, rtoken) =>
      if username ≠ StrVal.raw "" then
        handleAuthentication cfg tracerInstalled ctx bs r username password now
      else
        let res := GetToken cfg r rtoken now
        if res.2 then handleRefresh cfg r res.1 now
        else respondBadRequest
  else emptyResponse

namespace Httpupstream

/-- The only field of the upstream http.Response the adapter reads. -/
structure HTTPResponse where
  statusCode : Nat
  deriving DecidableEq, Repr

/-- Reading rsp.StatusCode on a possibly-nil response pointer: `none`
models the Go nil-pointer dereference (a runtime panic). -/
def readStatusCode (rsp : Option HTTPResponse) : Option Nat :=
  rsp.map (fun x => x.statusCode)

/-- httpupstream Auth.Authenticate, applied to the outcome of client.Do
(a possibly-nil response and a possibly-nil error): check the error first,
then the status code. `none` would mean a panic; this entry point never
reads the response on the error path. -/
def Authenticate (rsp : Option HTTPResponse) (e : Option GoError) :
    Option (Except GoError Bool) :=
  match e with
  | some err => some (.error err)
  | none =>
    match readStatusCode rsp with
    | none => none
    | some code => if code ≠ 200 then some (.ok false) else some (.ok true)

/-- httpupstream Auth.AuthenticateWithContext, applied to the outcome of
client.Do: the source tags the span with rsp.StatusCode BEFORE checking
the error, so the status code is read first. -/
def AuthenticateWithContext (rsp : Option HTTPResponse) (e : Option GoError) :
    Option (Except GoError Bool) :=
  match readStatusCode rsp with
  | none => none
  | some code =>
    match e with
    | some err => some (.error err)
    | none => if code ≠ 200 then some (.ok false) else some (.ok true)

end Httpupstream

/-! ### Concrete sample values (used by witnesses and counterexamples) -/

def sampleConfig : Config :=
  { loginPath := "/login", successURL := "/home", logoutURL := "",
    cookieName := "jwt_token", cookieDomain := "", cookieExpiry := 0,
    cookieHTTPOnly := true, jwtSecret := "secret", jwtExpiry := 3600,
    jwtRefreshes := 2 }

def sampleLogoutConfig : Config :=
  { sampleConfig with logoutURL := "https://example.com/bye" }

def sampleOtherSecretConfig : Config :=
  { sampleConfig with jwtSecret := "other" }

def sampleNoHttpOnlyConfig : Config :=
  { sampleConfig with cookieHTTPOnly := false }

def sampleInfo : UserInfo :=
  { sub := "alice", expiry := 9, refreshes := 0, origin := "simple" }

/-- A backend answering a clean credential mismatch on every input. -/
def rejectBackend : Backend :=
  ⟨fun _ _ => .ok (false, UserInfo.empty), fun _ _ _ => .ok (false, UserInfo.empty)⟩

/-- A backend accepting every input with the sample claims. -/
def acceptBackend : Backend :=
  ⟨fun _ _ => .ok (true, sampleInfo), fun _ _ _ => .ok (true, sampleInfo)⟩

/-- A backend failing operationally on every input. -/
def errorBackend : Backend :=
  ⟨fun _ _ => .error "upstream down", fun _ _ _ => .error "upstream down"⟩

def sampleFormRequest : Request :=
  { method := "POST", contentType := "application/x-www-form-urlencoded",
    accept := "application/json", jsonBody := none,
    postForm := [("username", StrVal.raw "alice"), ("password", StrVal.raw "pw")],
    query := [], cookies := [] }

def sampleHTMLFormRequest : Request :=
  { sampleFormRequest with accept := "text/html" }

def sampleRefreshInfo : UserInfo :=
  { sub := "bob", expiry := 100, refreshes := 0, origin := "" }

def sampleRefreshRequest : Request :=
  { method := "POST", contentType := "application/x-www-form-urlencoded",
    accept := "application/json", jsonBody := none,
    postForm := [("token", StrVal.jwt sampleRefreshInfo "secret")],
    query := [], cookies := [] }

def sampleDeleteRequest : Request :=
  { method := "DELETE", contentType := "", accept := "text/html",
    jsonBody := none, postForm := [], query := [], cookies := [] }

/-! ### Helper lemmas -/

/-- The ghost-instrumented fan-out computes the same result as
Handler.authenticate. -/
theorem authenticateInvoked_fst (bs : List Backend) (u p : StrVal) :
    (authenticateInvoked bs u p).1 = authenticate bs u p := by
  induction bs with
  | nil => rfl
  | cons b rest ih =>
    cases h : b.auth u p with
    | error e => simp [authenticateInvoked, authenticate, h]
    | ok v =>
      obtain ⟨flag, info⟩ := v
      cases flag
      · simp [authenticateInvoked, authenticate, h, ih]
      · simp [authenticateInvoked, authenticate, h]

/-- The ghost-instrumented context-aware fan-out computes the same result
as Handler.authenticateWithContext. -/
theorem authenticateWithContextInvoked_fst (bs : List Backend) (ctx : Ctx)
    (u p : StrVal) :
    (authenticateWithContextInvoked bs ctx u p).1 =
      authenticateWithContext bs ctx u p := by
  induction bs with
  | nil => rfl
  | cons b rest ih =>
    cases h : b.authCtx ctx u p with
    | error e => simp [authenticateWithContextInvoked, authenticateWithContext, h]
    | ok v =>
      obtain ⟨flag, info⟩ := v
      cases flag
      · simp [authenticateWithContextInvoked, authenticateWithContext, h, ih]
      · simp [authenticateWithContextInvoked, authenticateWithContext, h]

/-- If backend i is the first to answer ok=true, the plain fan-out adopts
its claims having invoked exactly the first i+1 backends. -/
theorem authenticateInvoked_first_true (bs : List Backend) (u p : StrVal) :
    ∀ (i : Nat) (hi : i < bs.length) (info : UserInfo),
      (bs.get ⟨i, hi⟩).auth u p = .ok (true, info) →
      (∀ j (hj : j < bs.length), j < i →
        ∃ v, (bs.get ⟨j, hj⟩).auth u p = Except.ok (false, v)) →
      authenticateInvoked bs u p = (.ok (true, info), i + 1) := by
  induction bs with
  | nil => intro i hi; exact absurd hi (by simp)
  | cons b rest ih =>
    intro i hi info hok hprev
    cases i with
    | zero =>
      simp only [List.get] at hok
      simp [authenticateInvoked, hok]
    | succ i =>
      obtain ⟨v, hv⟩ := hprev 0 (by simp) (Nat.succ_pos _)
      simp only [List.get] at hv
      have hrec := ih i (by simpa using Nat.lt_of_succ_lt_succ (by simpa using hi))
        info (by simpa [List.get] using hok)
        (fun j hj hlt => by
          simpa [List.get] using hprev (j + 1)
            (by simpa using Nat.succ_lt_succ hj) (Nat.succ_lt_succ hlt))
      simp [authenticateInvoked, hv, hrec]

/-- If backend i is the first to answer ok=true, the context-aware fan-out
adopts its claims having invoked exactly the first i+1 backends. -/
theorem authenticateWithContextInvoked_first_true (bs : List Backend)
    (ctx : Ctx) (u p : StrVal) :
    ∀ (i : Nat) (hi : i < bs.length) (info : UserInfo),
      (bs.get ⟨i, hi⟩).authCtx ctx u p = .ok (true, info) →
      (∀ j (hj : j < bs.length), j < i →
        ∃ v, (bs.get ⟨j, hj⟩).authCtx ctx u p = Except.ok (false, v)) →
      authenticateWithContextInvoked bs ctx u p = (.ok (true, info), i + 1) := by
  induction bs with
  | nil => intro i hi; exact absurd hi (by simp)
  | cons b rest ih =>
    intro i hi info hok hprev
    cases i with
    | zero =>
      simp only [List.get] at hok
      simp [authenticateWithContextInvoked, hok]
    | succ i =>
      obtain ⟨v, hv⟩ := hprev 0 (by simp) (Nat.succ_pos _)
      simp only [List.get] at hv
      have hrec := ih i (by simpa using Nat.lt_of_succ_lt_succ (by simpa using hi))
        info (by simpa [List.get] using hok)
        (fun j hj hlt => by
          simpa [List.get] using hprev (j + 1)
            (by simpa using Nat.succ_lt_succ hj) (Nat.succ_lt_succ hlt))
      simp [authenticateWithContextInvoked, hv, hrec]

/-- If backend i is the first to answer with a non-nil error, the plain
fan-out aborts with that error having invoked exactly the first i+1
backends. -/
theorem authenticateInvoked_first_error (bs : List Backend) (u p : StrVal) :
    ∀ (i : Nat) (hi : i < bs.length) (e : GoError),
      (bs.get ⟨i, hi⟩).auth u p = .error e →
      (∀ j (hj : j < bs.length), j < i →
        ∃ v, (bs.get ⟨j, hj⟩).auth u p = Except.ok (false, v)) →
      authenticateInvoked bs u p = (.error e, i + 1) := by
  induction bs with
  | nil => intro i hi; exact absurd hi (by simp)
  | cons b rest ih =>
    intro i hi e hok hprev
    cases i with
    | zero =>
      simp only [List.get] at hok
      simp [authenticateInvoked, hok]
    | succ i =>
      obtain ⟨v, hv⟩ := hprev 0 (by simp) (Nat.succ_pos _)
      simp only [List.get] at hv
      have hrec := ih i (by simpa using Nat.lt_of_succ_lt_succ (by simpa using hi))
        e (by simpa [List.get] using hok)
        (fun j hj hlt => by
          simpa [List.get] using hprev (j + 1)
            (by simpa using Nat.succ_lt_succ hj) (Nat.succ_lt_succ hlt))
      simp [authenticateInvoked, hv, hrec]

/-- If backend i is the first to answer with a non-nil error, the
context-aware fan-out aborts with that error having invoked exactly the
first i+1 backends. -/
theorem authenticateWithContextInvoked_first_error (bs : List Backend)
    (ctx : Ctx) (u p : StrVal) :
    ∀ (i : Nat) (hi : i < bs.length) (e : GoError),
      (bs.get ⟨i, hi⟩).authCtx ctx u p = .error e →
      (∀ j (hj : j < bs.length), j < i →
        ∃ v, (bs.get ⟨j, hj⟩).authCtx ctx u p = Except.ok (false, v)) →
      authenticateWithContextInvoked bs ctx u p = (.error e, i + 1) := by
  induction bs with
  | nil => intro i hi; exact absurd hi (by simp)
  | cons b rest ih =>
    intro i hi e hok hprev
    cases i with
    | zero =>
      simp only [List.get] at hok
      simp [authenticateWithContextInvoked, hok]
    | succ i =>
      obtain ⟨v, hv⟩ := hprev 0 (by simp) (Nat.succ_pos _)
      simp only [List.get] at hv
      have hrec := ih i (by simpa using Nat.lt_of_succ_lt_succ (by simpa using hi))
        e (by simpa [List.get] using hok)
        (fun j hj hlt => by
          simpa [List.get] using hprev (j + 1)
            (by simpa using Nat.succ_lt_succ hj) (Nat.succ_lt_succ hlt))
      simp [authenticateWithContextInvoked, hv, hrec]

/-- respondError always answers 500, for both client shapes. -/
theorem respondError_status (cfg : Config) (r : Request) :
    (respondError cfg r).status = 500 := by
  by_cases h : wantHTML r
  · simp [respondError, h, writeLoginForm]
  · simp [respondError, h]

/-! ### Claims -/

/-- C1: for every credential login over an ordered backend list, if
backend i is the first to return ok=true then its claims bundle is
adopted and exactly the first i+1 backends are invoked — no backend after
i is consulted — in both the plain and the context-aware fan-out. -/
theorem first_match_fan_out
    (bs : List Backend) (ctx : Ctx) (u p : StrVal) (i : Nat)
    (hi : i < bs.length) (info : UserInfo)
    (hok : (bs.get ⟨i, hi⟩).auth u p = .ok (true, info))
    (hprev : ∀ j (hj : j < bs.length), j < i →
      ∃ v, (bs.get ⟨j, hj⟩).auth u p = Except.ok (false, v))
    (hokC : (bs.get ⟨i, hi⟩).authCtx ctx u p = .ok (true, info))
    (hprevC : ∀ j (hj : j < bs.length), j < i →
      ∃ v, (bs.get ⟨j, hj⟩).authCtx ctx u p = Except.ok (false, v)) :
    authenticateInvoked bs u p = (.ok (true, info), i + 1) ∧
    authenticateWithContextInvoked bs ctx u p = (.ok (true, info), i + 1) ∧
    authenticate bs u p = .ok (true, info) ∧
    authenticateWithContext bs ctx u p = .ok (true, info) := by
  have h1 := authenticateInvoked_first_true bs u p i hi info hok hprev
  have h2 := authenticateWithContextInvoked_first_true bs ctx u p i hi info hokC hprevC
  refine ⟨h1, h2, ?_, ?_⟩
  · rw [← authenticateInvoked_fst, h1]
  · rw [← authenticateWithContextInvoked_fst, h2]

/-- C1 witness: with a rejecting backend before an accepting one, both
fan-outs adopt the second backend's claims after invoking exactly two
backends. -/
theorem first_match_fan_out_witness :
    authenticateInvoked [rejectBackend, acceptBackend]
        (StrVal.raw "alice") (StrVal.raw "pw") = (.ok (true, sampleInfo), 2) ∧
    authenticateWithContextInvoked [rejectBackend, acceptBackend] ()
        (StrVal.raw "alice") (StrVal.raw "pw") = (.ok (true, sampleInfo), 2) := by
  have H := first_match_fan_out [rejectBackend, acceptBackend] ()
    (StrVal.raw "alice") (StrVal.raw "pw") 1 (by decide) sampleInfo rfl
    (by
      intro j hj hlt
      have hj0 : j = 0 := by omega
      subst hj0
      exact ⟨UserInfo.empty, rfl⟩)
    rfl
    (by
      intro j hj hlt
      have hj0 : j = 0 := by omega
      subst hj0
      exact ⟨UserInfo.empty, rfl⟩)
  exact ⟨H.1, H.2.1⟩

/-- C2: if backend i is the first to return a non-nil error, no backend
after i is invoked (in either fan-out) and the credential-login response
has status 500 for every request, whatever its Accept header. -/
theorem error_short_circuit
    (cfg : Config) (tracerInstalled : Bool) (ctx : Ctx) (bs : List Backend)
    (r : Request) (u p : StrVal) (now : Int) (i : Nat) (hi : i < bs.length)
    (e eC : GoError)
    (herr : (bs.get ⟨i, hi⟩).auth u p = .error e)
    (hprev : ∀ j (hj : j < bs.length), j < i →
      ∃ v, (bs.get ⟨j, hj⟩).auth u p = Except.ok (false, v))
    (herrC : (bs.get ⟨i, hi⟩).authCtx ctx u p = .error eC)
    (hprevC : ∀ j (hj : j < bs.length), j < i →
      ∃ v, (bs.get ⟨j, hj⟩).authCtx ctx u p = Except.ok (false, v)) :
    authenticateInvoked bs u p = (.error e, i + 1) ∧
    authenticateWithContextInvoked bs ctx u p = (.error eC, i + 1) ∧
    (handleAuthentication cfg tracerInstalled ctx bs r u p now).status = 500 := by
  have h1 := authenticateInvoked_first_error bs u p i hi e herr hprev
  have h2 := authenticateWithContextInvoked_first_error bs ctx u p i hi eC herrC hprevC
  refine ⟨h1, h2, ?_⟩
  have ha : authenticate bs u p = .error e := by
    rw [← authenticateInvoked_fst, h1]
  have hb : authenticateWithContext bs ctx u p = .error eC := by
    rw [← authenticateWithContextInvoked_fst, h2]
  cases tracerInstalled
  · simp [handleAuthentication, ha, respondError_status]
  · simp [handleAuthentication, hb, respondError_status]

/-- C2 witness: one erroring backend in front of an accepting one aborts
the fan-out after a single invocation and yields status 500. -/
theorem error_short_circuit_witness :
    authenticateInvoked [errorBackend, acceptBackend]
        (StrVal.raw "alice") (StrVal.raw "pw") = (.error "upstream down", 1) ∧
    (handleAuthentication sampleConfig false () [errorBackend, acceptBackend]
        sampleFormRequest (StrVal.raw "alice") (StrVal.raw "pw") 0).status = 500 := by
  have H := error_short_circuit sampleConfig false () [errorBackend, acceptBackend]
    sampleFormRequest (StrVal.raw "alice") (StrVal.raw "pw") 0 0 (by decide)
    "upstream down" "upstream down" rfl
    (by intro j hj hlt; exact absurd hlt (by omega)) rfl
    (by intro j hj hlt; exact absurd hlt (by omega))
  exact ⟨H.1, H.2.2⟩

/-- C3: a POST reaching the refresh path with a valid token is answered
with 403 "Max JWT refreshes reached" (and no token) once the carried
refresh counter has reached JwtRefreshes; below the cap, the counter is
incremented by exactly one and the response is the one of a successful
credential login, whose re-signed token carries the bumped counter and
the expiry reset to now + JwtExpiry. -/
theorem refresh_cap_and_reissue
    (cfg : Config) (tracerInstalled : Bool) (ctx : Ctx) (bs : List Backend)
    (r : Request) (now : Int) (p rtoken : StrVal) (info : UserInfo)
    (hmethod : r.method = "POST")
    (hgate : methodContentTypeOk r = true)
    (hlogout : formValue r "logout" ≠ StrVal.raw "true")
    (hcred : getCredentials r = Except.ok (StrVal.raw "", p, rtoken))
    (htok : GetToken cfg r rtoken now = (info, true)) :
    handleLogin cfg tracerInstalled ctx bs r now =
      (if cfg.jwtRefreshes ≤ info.refreshes then respondMaxRefreshesReached
       else respondAuthenticated cfg r
         { info with refreshes := info.refreshes + 1 } now) ∧
    respondMaxRefreshesReached =
      { status := 403, body := Body.text "Max JWT refreshes reached" } ∧
    (info.refreshes < cfg.jwtRefreshes → wantHTML r = false →
      (handleLogin cfg tracerInstalled ctx bs r now).body =
        Body.token (StrVal.jwt
          { info with refreshes := info.refreshes + 1,
                      expiry := now + cfg.jwtExpiry } cfg.jwtSecret)) := by
  have hmain : handleLogin cfg tracerInstalled ctx bs r now =
      handleRefresh cfg r info now := by
    simp [handleLogin, hgate, hmethod, hlogout, hcred, htok]
  refine ⟨by rw [hmain, handleRefresh], rfl, ?_⟩
  intro hlt hhtml
  rw [hmain, handleRefresh, if_neg (Nat.not_le.mpr hlt)]
  simp [respondAuthenticated, hhtml, createToken]

/-- C3 witness: a refresh request below the cap reissues with the counter
bumped to 1 and the expiry reset. -/
theorem refresh_cap_and_reissue_witness :
    handleLogin sampleConfig false () [] sampleRefreshRequest 0 =
      (if sampleConfig.jwtRefreshes ≤ sampleRefreshInfo.refreshes
       then respondMaxRefreshesReached
       else respondAuthenticated sampleConfig sampleRefreshRequest
         { sampleRefreshInfo with refreshes := sampleRefreshInfo.refreshes + 1 } 0) ∧
    (handleLogin sampleConfig false () [] sampleRefreshRequest 0).body =
      Body.token (StrVal.jwt
        { sampleRefreshInfo with refreshes := sampleRefreshInfo.refreshes + 1,
                                 expiry := 0 + sampleConfig.jwtExpiry }
        sampleConfig.jwtSecret) := by
  have H := refresh_cap_and_reissue sampleConfig false () [] sampleRefreshRequest 0
    (StrVal.raw "") (StrVal.jwt sampleRefreshInfo "secret") sampleRefreshInfo
    rfl (by decide) (by decide) (by decide) (by decide)
  exact ⟨H.1, H.2.2 (by decide) (by decide)⟩

/-- C4 counterexample: the round-trip fails as stated on a claims bundle
whose expiry is in the future but whose subject is empty — parse rejects
an empty subject, so the minted token does not parse back to the bundle. -/
theorem mint_parse_roundtrip_cex :
    GetToken sampleConfig sampleFormRequest
        (createToken sampleConfig { sub := "", expiry := 10, refreshes := 0, origin := "" }) 0
      ≠ ({ sub := "", expiry := 10, refreshes := 0, origin := "" }, true) := by
  decide

/-- C4 (amended): for every claims bundle whose expiry is not in the past
and whose subject is non-empty, minting under a secret and parsing under
the same secret succeeds and returns the bundle unchanged. -/
theorem mint_parse_roundtrip
    (cfg : Config) (r : Request) (c : UserInfo) (now : Int)
    (hexp : now ≤ c.expiry) (hsub : c.sub ≠ "") :
    GetToken cfg r (createToken cfg c) now = (c, true) := by
  simp [GetToken, createToken, UserInfo.validAt, hexp, hsub]

/-- C4 witness: the sample claims round-trip under the sample secret. -/
theorem mint_parse_roundtrip_witness :
    GetToken sampleConfig sampleFormRequest
      (createToken sampleConfig sampleInfo) 0 = (sampleInfo, true) :=
  mint_parse_roundtrip sampleConfig sampleFormRequest sampleInfo 0
    (by decide) (by decide)

/-- C5: a token minted under one secret does not parse under a different
secret: the parse comes back invalid with the empty claims bundle. -/
theorem signature_binding
    (cfg cfg2 : Config) (r : Request) (c : UserInfo) (now : Int)
    (hsec : cfg.jwtSecret ≠ cfg2.jwtSecret) :
    GetToken cfg2 r (createToken cfg c) now = (UserInfo.empty, false) := by
  simp [GetToken, createToken, hsec]

/-- C5 witness: the sample token signed under "secret" is rejected under
"other". -/
theorem signature_binding_witness :
    GetToken sampleOtherSecretConfig sampleFormRequest
      (createToken sampleConfig sampleInfo) 0 = (UserInfo.empty, false) :=
  signature_binding sampleConfig sampleOtherSecretConfig sampleFormRequest
    sampleInfo 0 (by decide)

/-- C6: on a successful credential login (both fan-outs agreeing), an
Accept header containing text/html yields a 303 to SuccessURL with a
Set-Cookie whose value is the signed token; any other Accept header
yields 200 with Content-Type application/jwt and the token as the entire
body. -/
theorem content_negotiation_success
    (cfg : Config) (tracerInstalled : Bool) (ctx : Ctx) (bs : List Backend)
    (r : Request) (now : Int) (u p tok : StrVal) (info : UserInfo)
    (hmethod : r.method = "POST")
    (hgate : methodContentTypeOk r = true)
    (hlogout : formValue r "logout" ≠ StrVal.raw "true")
    (hcred : getCredentials r = Except.ok (u, p, tok))
    (huser : u ≠ StrVal.raw "")
    (hauth : authenticate bs u p = Except.ok (true, info))
    (hauthC : authenticateWithContext bs ctx u p = Except.ok (true, info)) :
    (strContains r.accept "text/html" = true →
      handleLogin cfg tracerInstalled ctx bs r now =
        { status := 303, location := some cfg.successURL,
          setCookie := some
            { name := cfg.cookieName,
              value := createToken cfg { info with expiry := now + cfg.jwtExpiry },
              httpOnly := cfg.cookieHTTPOnly,
              expires := if cfg.cookieExpiry ≠ 0 then some (now + cfg.cookieExpiry) else none,
              path := "/",
              domain := if cfg.cookieDomain ≠ "" then cfg.cookieDomain else "" } }) ∧
    (strContains r.accept "text/html" = false →
      handleLogin cfg tracerInstalled ctx bs r now =
        { status := 200, contentType := some contentTypeJWT,
          body := Body.token (createToken cfg { info with expiry := now + cfg.jwtExpiry }) }) := by
  have hmain : handleLogin cfg tracerInstalled ctx bs r now =
      handleAuthentication cfg tracerInstalled ctx bs r u p now := by
    simp [handleLogin, hgate, hmethod, hlogout, hcred, huser]
  have hdisp : handleAuthentication cfg tracerInstalled ctx bs r u p now =
      respondAuthenticated cfg r info now := by
    cases tracerInstalled
    · simp [handleAuthentication, hauth]
    · simp [handleAuthentication, hauthC]
  constructor
  · intro hhtml
    rw [hmain, hdisp, respondAuthenticated]
    simp [wantHTML, hhtml]
  · intro hhtml
    rw [hmain, hdisp, respondAuthenticated]
    simp [wantHTML, hhtml]

/-- C6 witness: the sample machine-client form login returns 200 with the
token body. -/
theorem content_negotiation_success_witness :
    handleLogin sampleConfig false () [acceptBackend] sampleFormRequest 0 =
      { status := 200, contentType := some contentTypeJWT,
        body := Body.token (createToken sampleConfig
          { sampleInfo with expiry := 0 + sampleConfig.jwtExpiry }) } :=
  (content_negotiation_success sampleConfig false () [acceptBackend]
      sampleFormRequest 0 (StrVal.raw "alice") (StrVal.raw "pw") (StrVal.raw "")
      sampleInfo rfl (by decide) (by decide) (by decide) (by decide)
      rfl rfl).2 (by decide)

/-- C7: every logout request (DELETE, or a gated request with
logout=true) answers with the deletion cookie — configured name, value
"delete", expiry at the epoch, path /, domain from config — and, when
LogoutURL is configured, a 303 with Location LogoutURL; otherwise the
login form is rendered. -/
theorem logout_cookie_and_redirect
    (cfg : Config) (tracerInstalled : Bool) (ctx : Ctx) (bs : List Backend)
    (r : Request) (now : Int)
    (hgate : methodContentTypeOk r = true)
    (hlogout : r.method = "DELETE" ∨ formValue r "logout" = StrVal.raw "true") :
    (handleLogin cfg tracerInstalled ctx bs r now).setCookie =
      some (deleteToken cfg) ∧
    deleteToken cfg =
      { name := cfg.cookieName, value := StrVal.raw "delete", httpOnly := true,
        expires := some 0, path := "/", domain := cfg.cookieDomain } ∧
    (cfg.logoutURL ≠ "" →
      handleLogin cfg tracerInstalled ctx bs r now =
        { status := 303, location := some cfg.logoutURL,
          setCookie := some (deleteToken cfg) }) ∧
    (cfg.logoutURL = "" →
      (handleLogin cfg tracerInstalled ctx bs r now).body =
        Body.form { config := cfg } ∧
      (handleLogin cfg tracerInstalled ctx bs r now).status = 200) := by
  have hdel : deleteToken cfg =
      { name := cfg.cookieName, value := StrVal.raw "delete", httpOnly := true,
        expires := some 0, path := "/", domain := cfg.cookieDomain } := by
    by_cases h : cfg.cookieDomain = ""
    · simp [deleteToken, h]
    · simp [deleteToken, h]
  by_cases hurl : cfg.logoutURL = ""
  · have hmain : handleLogin cfg tracerInstalled ctx bs r now =
        { writeLoginForm { config := cfg } with setCookie := some (deleteToken cfg) } := by
      simp [handleLogin, hgate, hlogout, hurl]
    refine ⟨?_, hdel, fun hne => absurd hurl hne, fun _ => ?_⟩
    · rw [hmain]
    · rw [hmain]
      exact ⟨rfl, rfl⟩
  · have hmain : handleLogin cfg tracerInstalled ctx bs r now =
        { status := 303, location := some cfg.logoutURL,
          setCookie := some (deleteToken cfg) } := by
      simp [handleLogin, hgate, hlogout, hurl]
    exact ⟨by rw [hmain], hdel, fun _ => hmain, fun h => absurd h hurl⟩

/-- C7 witness: a DELETE with a configured LogoutURL clears the cookie
and redirects there. -/
theorem logout_cookie_and_redirect_witness :
    (handleLogin sampleLogoutConfig false () [] sampleDeleteRequest 0).setCookie =
      some (deleteToken sampleLogoutConfig) ∧
    handleLogin sampleLogoutConfig false () [] sampleDeleteRequest 0 =
      { status := 303, location := some sampleLogoutConfig.logoutURL,
        setCookie := some (deleteToken sampleLogoutConfig) } := by
  have H := logout_cookie_and_redirect sampleLogoutConfig false () []
    sampleDeleteRequest 0 (by decide) (Or.inl rfl)
  exact ⟨H.1, H.2.2.1 (by decide)⟩

/-- C8: in the httpupstream backend there is a outcome of client.Do with
a non-nil error (hence a nil response, the Go contract): the context-aware
entry point reads rsp.StatusCode before checking the error and so panics
on a nil dereference (modelled as none), while the plain entry point
returns the error cleanly. -/
theorem httpupstream_ctx_nil_dereference (e : GoError) :
    Httpupstream.AuthenticateWithContext none (some e) = none ∧
    Httpupstream.Authenticate none (some e) = some (Except.error e) :=
  ⟨rfl, rfl⟩

/-- C9: a POST whose Content-Type is application/json followed by
parameters passes the method/content-type gate, but the credential parser
takes the form branch, so all three fields come back empty and a JSON
body holding a username is answered 400; the JSON branch is taken only
when the Content-Type equals "application/json" exactly. -/
theorem json_content_type_exact_only
    (cfg : Config) (tracerInstalled : Bool) (ctx : Ctx) (bs : List Backend)
    (accept : String) (u : String) (now : Int) (hu : u ≠ "") :
    let r : Request :=
      { method := "POST", contentType := "application/json; charset=utf-8",
        accept := accept, jsonBody := some [("username", StrVal.raw u)],
        postForm := [], query := [], cookies := [] }
    methodContentTypeOk r = true ∧
    getCredentials r = Except.ok (StrVal.raw "", StrVal.raw "", StrVal.raw "") ∧
    handleLogin cfg tracerInstalled ctx bs r now = respondBadRequest ∧
    respondBadRequest.status = 400 ∧
    (∀ r2 : Request, r2.contentType ≠ "application/json" →
      getCredentials r2 = Except.ok (lookupStr r2.postForm "username",
        lookupStr r2.postForm "password", lookupStr r2.postForm "token")) := by
  refine ⟨rfl, rfl, rfl, rfl, ?_⟩
  intro r2 h
  simp [getCredentials, h]

/-- C9 witness: the statement at username "alice". -/
theorem json_content_type_exact_only_witness :
    handleLogin sampleConfig false () []
      { method := "POST", contentType := "application/json; charset=utf-8",
        accept := "application/json",
        jsonBody := some [("username", StrVal.raw "alice")],
        postForm := [], query := [], cookies := [] } 0 = respondBadRequest :=
  (json_content_type_exact_only sampleConfig false () [] "application/json"
    "alice" 0 (by decide)).2.2.1

/-- C10: the logout deletion cookie is HttpOnly unconditionally, for every
configuration, while the success cookie set on an HTML-client
authentication carries the configured CookieHTTPOnly flag. -/
theorem deletion_cookie_httponly_unconditional
    (cfg : Config) (r : Request) (info : UserInfo) (now : Int)
    (hhtml : wantHTML r = true) :
    (deleteToken cfg).httpOnly = true ∧
    ((respondAuthenticated cfg r info now).setCookie).map Cookie.httpOnly =
      some cfg.cookieHTTPOnly := by
  refine ⟨rfl, ?_⟩
  simp [respondAuthenticated, hhtml]

/-- C10 witness: with CookieHTTPOnly configured off, the deletion cookie
is still HttpOnly while the success cookie is not. -/
theorem deletion_cookie_httponly_unconditional_witness :
    (deleteToken sampleNoHttpOnlyConfig).httpOnly = true ∧
    ((respondAuthenticated sampleNoHttpOnlyConfig sampleHTMLFormRequest
        sampleInfo 0).setCookie).map Cookie.httpOnly = some false :=
  deletion_cookie_httponly_unconditional sampleNoHttpOnlyConfig
    sampleHTMLFormRequest sampleInfo 0 (by decide)

end Loginsrv
